import Mathlib

/-!
Verification development for the `AgenticResearcher` class of
`opendeepresearcher` (src/researcher.py).

The Python class is shallowly embedded: the mutable `self` object becomes the
explicit state `ResearcherState`, Python exceptions of the external services
(the Exa search client, the Firecrawl scraper, the Anthropic model client)
become `… | raise msg` outcome values supplied as oracle parameters, and
`datetime.now()` timestamps become `Nat` values supplied the same way
(Python compares the ISO strings with `>`, which on same-format ISO strings
is chronological order, so an ordered `Nat` clock is a faithful model).
Python strings are Lean `String`s; slicing `s[:n]` is `pyTruncate`.
The Streamlit progress callback (`update_progress`) is modelled as an
append-only event log inside the state.
-/

namespace OpenDeepResearcher

/-- One call to the progress callback (`update_progress`,
researcher.py lines 49-57): message, type, optional iteration counters. -/
structure ProgressEvent where
  message : String
  ptype : String
  iteration_num : Option Nat
  total_iterations : Option Nat
  deriving DecidableEq, Repr

/-- Entry of `self.search_history` (researcher.py lines 102-108 on success,
116-123 on failure).  A successful search appends no `error` key; the
failure entry carries the exception text. -/
structure SearchRecord where
  query : String
  timestamp : Nat
  num_results : Nat
  start_date : Option String
  end_date : Option String
  error : Option String
  deriving DecidableEq, Repr

/-- Entry of `self.content_retrieval_history` (researcher.py lines 161-170 on
the non-raising path, 179-188 on the raising path).  `content_length` is
present exactly on the non-raising path, `error` exactly on the raising one. -/
structure FetchRecord where
  url : String
  timestamp : Nat
  success : Bool
  content_length : Option Nat
  error : Option String
  deriving DecidableEq, Repr

/-- Entry of `self.research_iterations` (researcher.py lines 533-540). -/
structure IterationRecord where
  iteration : Nat
  query : String
  response : String
  search_queries : List SearchRecord
  content_retrievals : List FetchRecord
  timestamp : Nat
  deriving DecidableEq, Repr

/-- A field of a tool-use content block's `input` dictionary.  `web_search`
reads `query`, `start_date`, `end_date`; `get_article_content` reads `url`
(researcher.py lines 344-346, 425); a missing key defaults via `.get`. -/
structure ToolInput where
  query : Option String := none
  start_date : Option String := none
  end_date : Option String := none
  url : Option String := none
  deriving DecidableEq, Repr

/-- A content block of a model response: either a text block or a tool-use
block carrying a tool name, an input dictionary and an id (the shapes the
code inspects at researcher.py lines 266-268 and 338-347). -/
inductive ContentBlock where
  | text (s : String)
  | toolUse (name : String) (input : ToolInput) (id : String)
  deriving DecidableEq, Repr

/-- A message of `self.messages`: the code appends either a plain string
content, the raw block list of a model response, or a one-element
tool-result list (researcher.py lines 194-199, 358-361, 388-396). -/
inductive MsgContent where
  | str (s : String)
  | blocks (bs : List ContentBlock)
  | toolResult (tool_use_id : String) (content : String)
  deriving DecidableEq, Repr

structure Message where
  role : String
  content : MsgContent
  deriving DecidableEq, Repr

/-- A well-formed search result's fields, each possibly absent, as read by
`format_search_results` (researcher.py lines 229-249). -/
structure SearchResult where
  title : Option String := none
  url : Option String := none
  publishedDate : Option String := none
  author : Option String := none
  text : Option String := none
  deriving DecidableEq, Repr

/-- One entry of a result list: a mapping-style entry (`isinstance(result,
dict)` branch, lines 229-238), an attribute-style entry (lines 239-249), or
an entry whose per-article formatting raises (the `except` at lines 252-255,
e.g. a `text` value `len` rejects). The two well-formed shapes render
identically. -/
inductive ResultEntry where
  | dict (r : SearchResult)
  | obj (r : SearchResult)
  | bad
  deriving DecidableEq, Repr

/-- The shape of a value returned by `exa_client.search_and_contents`, as
sniffed at researcher.py lines 96-100 and 211-218: an object with a
`results` attribute, a mapping with a `'results'` key, or neither. -/
inductive SearchResponse where
  | attrStyle (results : List ResultEntry)
  | dictStyle (results : List ResultEntry)
  | other
  deriving DecidableEq, Repr

/-- The shape of a value returned by `firecrawl_client.scrape_url`, as
sniffed at researcher.py lines 141-158: `markdown` attribute; `data`
attribute that itself has `markdown`; `data` attribute that is a mapping
with `'markdown'`; `data` attribute with neither; a mapping whose `'data'`
is a mapping (with `'markdown'` optional); a plain mapping (`'markdown'`
optional); or none of these shapes. -/
inductive ScrapeResponse where
  | attrMarkdown (md : String)
  | dataAttrMarkdown (md : String)
  | dataDictMarkdown (md : String)
  | dataOther
  | dictDataDict (md : Option String)
  | dictPlain (md : Option String)
  | otherShape
  deriving DecidableEq, Repr

/-- Outcome of one `exa_client.search_and_contents` call: a returned value or
a raised exception with its text. -/
inductive ExaOutcome where
  | ok (resp : SearchResponse)
  | raise (msg : String)
  deriving DecidableEq, Repr

/-- Outcome of one `firecrawl_client.scrape_url` call. -/
inductive ScrapeOutcome where
  | ok (resp : ScrapeResponse)
  | raise (msg : String)
  deriving DecidableEq, Repr

/-- Outcome of one `claude_client.messages.create` call: the response's
content-block list, or a raised exception with its text. -/
inductive ModelOutcome where
  | ok (content : List ContentBlock)
  | raise (msg : String)
  deriving DecidableEq, Repr

/-- The mutable fields of the `AgenticResearcher` object (researcher.py
lines 20-47).  `model` and `results_per_search` are set once in `__init__`;
`progress` is the log of progress-callback invocations. -/
structure ResearcherState where
  messages : List Message
  model : String
  research_iterations : List IterationRecord
  search_history : List SearchRecord
  content_retrieval_history : List FetchRecord
  results_per_search : Nat
  progress : List ProgressEvent
  deriving DecidableEq, Repr

/-- The state `__init__` leaves behind (researcher.py lines 13-47). -/
def initial_state (model : String) (results_per_search : Nat) : ResearcherState :=
  { messages := []
    model := model
    research_iterations := []
    search_history := []
    content_retrieval_history := []
    results_per_search := results_per_search
    progress := [] }

/-- `update_progress` (researcher.py lines 49-57), modelled with the
progress callback present: the call is recorded in the event log. -/
def update_progress (st : ResearcherState) (message : String) (ptype : String)
    (iteration_num : Option Nat := none) (total_iterations : Option Nat := none) :
    ResearcherState :=
  { st with progress := st.progress ++ [⟨message, ptype, iteration_num, total_iterations⟩] }

/-- Python string slicing `s[:n]` (used at researcher.py lines 174 and 236). -/
def pyTruncate (s : String) (n : Nat) : String :=
  ⟨s.data.take n⟩

/-- The number of results a `SearchResponse` holds, counted defensively as at
researcher.py lines 94-100 (and again at lines 374-381): attribute shape,
mapping shape, else 0. -/
def countSearchResults : SearchResponse → Nat
  | .attrStyle rs => rs.length
  | .dictStyle rs => rs.length
  | .other => 0

/-- `search_with_exa` (researcher.py lines 59-124).  The provider call's
outcome and the `datetime.now()` value are oracle parameters.  On a raised
provider exception the method records a failed `SearchRecord` and returns
`None` (here `none`); it never re-raises. -/
def search_with_exa (st : ResearcherState) (query : String) (num_results : Option Nat)
    (start_date end_date : Option String) (now : Nat) (outcome : ExaOutcome) :
    ResearcherState × Option SearchResponse :=
  -- line 65-66: default the result count, forwarded in the provider request
  -- whose outcome is the `outcome` parameter
  let _requested := num_results.getD st.results_per_search
  let st := update_progress st ("Searching for: " ++ query) "search"
  match outcome with
  | .ok results =>
      let result_count := countSearchResults results
      let st := { st with search_history := st.search_history ++
        [{ query := query, timestamp := now, num_results := result_count,
           start_date := start_date, end_date := end_date, error := none }] }
      let st := update_progress st
        ("Found " ++ toString result_count ++ " results for '" ++ query ++ "'") "search"
      (st, some results)
  | .raise e =>
      let st := update_progress st ("Search error: " ++ e) "error"
      let st := { st with search_history := st.search_history ++
        [{ query := query, timestamp := now, num_results := 0,
           start_date := start_date, end_date := end_date, error := some e }] }
      (st, none)

/-- The content string `get_full_content` extracts from a scrape response
(researcher.py lines 138-158): the first matching shape's markdown, else the
sentinel `"Error retrieving content"`. -/
def extractMarkdown : ScrapeResponse → String
  | .attrMarkdown md => md
  | .dataAttrMarkdown md => md
  | .dataDictMarkdown md => md
  | .dataOther => "Error retrieving content"
  | .dictDataDict md => md.getD "Error retrieving content"
  | .dictPlain md => md.getD "Error retrieving content"
  | .otherShape => "Error retrieving content"

/-- `get_full_content` (researcher.py lines 126-190).  On the non-raising
path the full pre-truncation length is logged (line 169) while the returned
value is `content[:100000]` (line 174); on a raised exception a failed
record is logged and the sentinel string is returned. -/
def get_full_content (st : ResearcherState) (url : String) (now : Nat)
    (outcome : ScrapeOutcome) : ResearcherState × String :=
  let st := update_progress st ("Retrieving content from: " ++ url) "content"
  match outcome with
  | .ok resp =>
      let content := extractMarkdown resp
      let st := { st with content_retrieval_history := st.content_retrieval_history ++
        [{ url := url, timestamp := now,
           success := content != "Error retrieving content",
           content_length := some content.length, error := none }] }
      let st := update_progress st
        ("Retrieved " ++ toString content.length ++ " characters from article") "content"
      (st, pyTruncate content 100000)
  | .raise e =>
      let st := update_progress st ("Content retrieval error: " ++ e) "error"
      let st := { st with content_retrieval_history := st.content_retrieval_history ++
        [{ url := url, timestamp := now, success := false,
           content_length := none, error := some e }] }
      (st, "Error retrieving content")

/-- `initialize_conversation` (researcher.py lines 192-199): `self.messages`
is replaced (not extended) by the single seed message. -/
def initialize_conversation (st : ResearcherState) (user_query : String) : ResearcherState :=
  { st with messages := [⟨"user", .str ("I want to thoroughly research: '" ++ user_query ++
      "'. Please search for relevant scientific literature on this topic.")⟩] }

/-- The content excerpt of one article (researcher.py lines 235-238 and
246-249): capped at 2000 characters with an ellipsis marker when longer. -/
def excerpt (t : String) : String :=
  if t.length > 2000 then pyTruncate t 2000 ++ "..." else t

/-- The per-article block built by the loop body of `format_search_results`
(researcher.py lines 224-255); `idx` is the 0-based `enumerate` index.  The
mapping-style and attribute-style branches render identically; a raising
entry yields the placeholder block of lines 252-255. -/
def formatEntry (idx : Nat) : ResultEntry → String
  | .dict r | .obj r =>
      "--- Article " ++ toString (idx + 1) ++ " ---\n" ++
      "Title: " ++ r.title.getD "N/A" ++ "\n" ++
      "URL: " ++ r.url.getD "N/A" ++ "\n" ++
      "Published: " ++ r.publishedDate.getD "N/A" ++ "\n" ++
      "Author: " ++ r.author.getD "N/A" ++ "\n" ++
      (match r.text with
       | some t => "Content excerpt:\n" ++ excerpt t ++ "\n\n"
       | none => "")
  | .bad => "--- Article " ++ toString (idx + 1) ++ " ---\n[Error formatting this result]\n\n"

/-- The result list `format_search_results` settles on (researcher.py lines
206-222): the `results` attribute, the `'results'` key, or — after the
"Unexpected search response format" progress event — the initial empty list.
(The `except` at lines 219-222 is unreachable for the response shapes
modelled here: attribute lookup on them does not raise.) -/
def responseResults : SearchResponse → List ResultEntry
  | .attrStyle rs => rs
  | .dictStyle rs => rs
  | .other => []

/-- `format_search_results` (researcher.py lines 201-260). -/
def format_search_results : Option SearchResponse → String
  | none => "No search results found."
  | some resp =>
      let results := responseResults resp
      let formatted := results.enum.map (fun p => formatEntry p.1 p.2)
      if formatted = [] then "No results found for the given query."
      else String.intercalate "\n" formatted

/-- `extract_text_content` (researcher.py lines 262-273): the `text` fields
of the text-type blocks, joined with newlines. -/
def extract_text_content (content_list : List ContentBlock) : String :=
  String.intercalate "\n" (content_list.filterMap fun
    | .text s => some s
    | .toolUse _ _ _ => none)

/-- Appending an assistant message holding a raw response-content list
(researcher.py lines 358-361, 412-417, 433-436, 470-475, 484-487). -/
def appendAssistant (st : ResearcherState) (bs : List ContentBlock) : ResearcherState :=
  { st with messages := st.messages ++ [⟨"assistant", .blocks bs⟩] }

/-- Appending the user message holding one tool-result block
(researcher.py lines 388-396 and 446-454). -/
def appendToolResult (st : ResearcherState) (id content : String) : ResearcherState :=
  { st with messages := st.messages ++ [⟨"user", .toolResult id content⟩] }

/-- The tool-use block the loop at researcher.py lines 338-478 acts on: the
first `tool_use`-type block whose name is `web_search` or
`get_article_content`.  Blocks of other types, and tool-use blocks with any
other name, fall through to the next loop pass. -/
def findFirstTool : List ContentBlock → Option (String × ToolInput × String)
  | [] => none
  | .text _ :: rest => findFirstTool rest
  | .toolUse name input id :: rest =>
      if name = "web_search" ∨ name = "get_article_content" then some (name, input, id)
      else findFirstTool rest

/-- The external events one `run_research_iteration` call can consume: the
outcome of the first model call, the `datetime.now()` value stamped on any
adapter record, the outcome of whichever adapter call the model requests,
and the outcome of the follow-up analysis model call. -/
structure IterationEnv where
  firstCall : ModelOutcome
  toolTime : Nat
  exaOutcome : ExaOutcome
  scrapeOutcome : ScrapeOutcome
  analysisCall : ModelOutcome
  deriving Repr

/-- The count recomputed inside the `web_search` branch at researcher.py
lines 374-381 (`if search_results:` then the same two-shape sniff). -/
def driverResultCount : Option SearchResponse → Nat
  | none => 0
  | some resp => countSearchResults resp

/-- `run_research_iteration` (researcher.py lines 275-495).  The whole body
sits in a `try`; any exception raised by a model call lands in the `except`
at lines 490-495, which logs an `error` progress event and returns the
in-band string `"An error occurred: …"`.  Adapter exceptions never reach
this handler: `search_with_exa` and `get_full_content` catch their own. -/
def run_research_iteration (st : ResearcherState) (env : IterationEnv) :
    ResearcherState × String :=
  let st := update_progress st "Requesting Claude's analysis..." "info"
  match env.firstCall with
  | .raise e =>
      let st := update_progress st ("Error during research iteration: " ++ e) "error"
      (st, "An error occurred: " ++ e)
  | .ok content =>
      let claude_initial_response := extract_text_content content
      let st := update_progress st "Claude is analyzing the research topic..." "info"
      match findFirstTool content with
      | none =>
          -- lines 480-488: no tool use detected
          let st := update_progress st "Claude is formulating research strategy..." "info"
          let st := appendAssistant st content
          (st, claude_initial_response)
      | some (name, input, id) =>
          if name = "web_search" then
            -- lines 342-420
            let search_query := input.query.getD ""
            let start_date := input.start_date
            let end_date := input.end_date
            let date_range_str :=
              if start_date.isSome || end_date.isSome then
                " with date range: " ++ start_date.getD "any" ++ " to " ++ end_date.getD "present"
              else ""
            let st := update_progress st
              ("Claude is searching for: '" ++ search_query ++ "'" ++ date_range_str) "search"
            let st := appendAssistant st content
            let swr := search_with_exa st search_query none start_date end_date
              env.toolTime env.exaOutcome
            let st := swr.1
            let search_results := swr.2
            let formatted_results := format_search_results search_results
            let result_count := driverResultCount search_results
            let st := update_progress st
              ("Found " ++ toString result_count ++ " papers. Claude is analyzing...") "info"
            let st := appendToolResult st id formatted_results
            let st := update_progress st "Claude is analyzing search results..." "info"
            match env.analysisCall with
            | .raise e =>
                let st := update_progress st ("Error during research iteration: " ++ e) "error"
                (st, "An error occurred: " ++ e)
            | .ok acontent =>
                let analysis_text := extract_text_content acontent
                let st := appendAssistant st acontent
                (st, analysis_text)
          else
            -- lines 423-478: get_article_content
            let article_url := input.url.getD ""
            let st := update_progress st "Claude is retrieving full article content..." "content"
            let st := appendAssistant st content
            let gfc := get_full_content st article_url env.toolTime env.scrapeOutcome
            let st := gfc.1
            let article_content := gfc.2
            let st := update_progress st "Article retrieved. Claude is analyzing..." "info"
            let st := appendToolResult st id article_content
            let st := update_progress st "Claude is analyzing article content..." "info"
            match env.analysisCall with
            | .raise e =>
                let st := update_progress st ("Error during research iteration: " ++ e) "error"
                (st, "An error occurred: " ++ e)
            | .ok acontent =>
                let analysis_text := extract_text_content acontent
                let st := appendAssistant st acontent
                (st, analysis_text)

/-- The follow-up user prompt appended between iterations (researcher.py
lines 544-553; the triple-quoted literal's interior indentation is elided). -/
def nextPrompt (user_query : String) : String :=
  "\nBased on what you've learned so far about " ++ user_query ++ ", please:\n\n" ++
  "1. Identify a key gap in our current understanding\n" ++
  "2. Formulate a specific follow-up search query to address this gap or retrieve a full article if needed\n" ++
  "   (You can specify date ranges for your search if relevant)\n" ++
  "3. Execute the search or content retrieval and analyze the results\n"

/-- The final-synthesis user prompt (researcher.py lines 559-575; interior
indentation elided). -/
def finalPrompt (user_query : String) (max_iterations : Nat) : String :=
  "\nWe've completed " ++ toString max_iterations ++ " iterations of research on \"" ++
  user_query ++ "\".\n\n" ++
  "Please synthesize all the information you've gathered into a lengthy comprehensive research report (at least five pages).\n" ++
  "This should not be a summary but rather a comprehensive literature review.\n\n" ++
  "You must include proper citations to the sources you've used.\n\n" ++
  "Your report should:\n" ++
  "1. Have a clear introduction stating the research question\n" ++
  "2. Organize findings into logical sections with headings\n" ++
  "3. Provide detailed, lengthy descriptions about the current state of knowledge with numbers, evidence, and quotes from papers\n" ++
  "4. Identify remaining questions or areas for future research\n" ++
  "5. Conclude with key takeaways\n" ++
  "6. Have a complete untruncated references list\n" ++
  "7. Be in Markdown format with all sources linked using something like [source](link)\n"

/-- One pass of the `for i in range(max_iterations)` loop of
`run_research_loop` (researcher.py lines 505-553): run the iteration,
attribute the search/fetch records by the timestamp rule, append the
`IterationRecord`, and (when not the last pass) append the follow-up
prompt.  `iterEnv i` and `iterTime i` are the external events and the
`datetime.now()` value of pass `i`. -/
def loopStep (user_query : String) (max_iterations : Nat)
    (iterEnv : Nat → IterationEnv) (iterTime : Nat → Nat)
    (st : ResearcherState) (i : Nat) : ResearcherState :=
  let st := update_progress st
    ("Research iteration " ++ toString (i + 1) ++ "/" ++ toString max_iterations)
    "iteration" (some (i + 1)) (some max_iterations)
  let rri := run_research_iteration st (iterEnv i)
  let st := rri.1
  let claude_response := rri.2
  let current_time := iterTime i
  let slices :=
    if i = 0 then
      -- lines 515-519: first iteration takes a copy of everything so far
      (st.search_history, st.content_retrieval_history)
    else
      -- lines 520-530: records strictly after the previous iteration's timestamp.
      -- `self.research_iterations[-1]` would raise IndexError on an empty list;
      -- that cannot happen here since every earlier pass appended a record, so
      -- the `none` branch below is unreachable inside `run_research_loop`.
      match st.research_iterations.getLast? with
      | some prev =>
          (st.search_history.filter (fun s => prev.timestamp < s.timestamp),
           st.content_retrieval_history.filter (fun c => prev.timestamp < c.timestamp))
      | none => (st.search_history, st.content_retrieval_history)
  let st := { st with research_iterations := st.research_iterations ++
    [{ iteration := i + 1, query := user_query, response := claude_response,
       search_queries := slices.1, content_retrievals := slices.2,
       timestamp := current_time }] }
  if i < max_iterations - 1 then
    { st with messages := st.messages ++ [⟨"user", .str (nextPrompt user_query)⟩] }
  else st

/-- The whole iteration loop of `run_research_loop` (researcher.py lines
505-553), i.e. everything between conversation seeding and the final
synthesis. -/
def loopPhase (user_query : String) (max_iterations : Nat)
    (iterEnv : Nat → IterationEnv) (iterTime : Nat → Nat)
    (st : ResearcherState) : ResearcherState :=
  (List.range max_iterations).foldl (loopStep user_query max_iterations iterEnv iterTime) st

/-- The external events of a whole `run_research_loop` call: per-pass
iteration events and times, and the outcome and `datetime.now()` value of
the final synthesis. -/
structure LoopEnv where
  iterEnv : Nat → IterationEnv
  iterTime : Nat → Nat
  finalOutcome : ModelOutcome
  finalTime : Nat

/-- The research-data dictionary `run_research_loop` returns as second
component: lines 590-598 build the success shape (with `model` and
`final_report` keys, no `error`), lines 608-615 the failure shape (with
`error`, without `model` or `final_report`). -/
structure ResearchData where
  query : String
  model : Option String
  iterations : List IterationRecord
  search_history : List SearchRecord
  content_retrieval_history : List FetchRecord
  final_report : Option String
  error : Option String
  timestamp : Nat
  deriving DecidableEq, Repr

/-- `run_research_loop` (researcher.py lines 497-615).  Only the final
synthesis model call sits in a `try` (lines 579-615): if it raises, the
method returns the in-band error report and the partial research-data
dictionary instead of propagating. -/
def run_research_loop (st : ResearcherState) (user_query : String)
    (max_iterations : Nat) (env : LoopEnv) : String × ResearchData :=
  let st := update_progress st ("Starting research on: '" ++ user_query ++ "'") "info"
  let st := update_progress st
    ("Planning " ++ toString max_iterations ++ " research iterations") "info"
  let st := initialize_conversation st user_query
  let st := loopPhase user_query max_iterations env.iterEnv env.iterTime st
  let st := update_progress st "Generating comprehensive research report..." "final_report"
  let st := { st with messages := st.messages ++
    [(⟨"user", .str (finalPrompt user_query max_iterations)⟩ : Message)] }
  match env.finalOutcome with
  | .ok content =>
      let final_report := extract_text_content content
      (final_report,
       { query := user_query, model := some st.model,
         iterations := st.research_iterations,
         search_history := st.search_history,
         content_retrieval_history := st.content_retrieval_history,
         final_report := some final_report, error := none,
         timestamp := env.finalTime })
  | .raise e =>
      ("An error occurred while generating the final report: " ++ e,
       { query := user_query, model := none,
         iterations := st.research_iterations,
         search_history := st.search_history,
         content_retrieval_history := st.content_retrieval_history,
         final_report := none, error := some e,
         timestamp := env.finalTime })

/-! Claim theorems. -/

/-- C6: for a null input, `format_search_results` returns the fixed string
"No search results found."; for a result set with no entries (empty
attribute-style list, empty mapping-style list, or a response of
unrecognized shape whose result list stays empty) it returns the fixed
string "No results found for the given query.".  Both are fixed non-empty
"no results" strings, never the empty string; the function is total, so no
exception can escape it. -/
theorem claim_C6_empty_inputs_fixed_strings :
    format_search_results none = "No search results found." ∧
    format_search_results (some (.attrStyle [])) = "No results found for the given query." ∧
    format_search_results (some (.dictStyle [])) = "No results found for the given query." ∧
    format_search_results (some .other) = "No results found for the given query." ∧
    "No search results found." ≠ "" ∧
    "No results found for the given query." ≠ "" := by
  decide

/-- C7: on a two-entry result set in which one entry faults during
per-article formatting and the other is well-formed, the output is the two
blocks joined by a newline, where the faulting entry's block is exactly the
placeholder line and the well-formed entry's block is fully rendered — in
either order, so one bad entry never discards or alters the rest. -/
theorem claim_C7_malformed_entry_isolated (r : SearchResult) :
    format_search_results (some (.attrStyle [.bad, .obj r])) =
      "--- Article 1 ---\n[Error formatting this result]\n\n" ++ "\n" ++
      "--- Article 2 ---\n" ++ "Title: " ++ r.title.getD "N/A" ++ "\n" ++
      "URL: " ++ r.url.getD "N/A" ++ "\n" ++
      "Published: " ++ r.publishedDate.getD "N/A" ++ "\n" ++
      "Author: " ++ r.author.getD "N/A" ++ "\n" ++
      (match r.text with
       | some t => "Content excerpt:\n" ++ excerpt t ++ "\n\n"
       | none => "") ∧
    format_search_results (some (.dictStyle [.dict r, .bad])) =
      "--- Article 1 ---\n" ++ "Title: " ++ r.title.getD "N/A" ++ "\n" ++
      "URL: " ++ r.url.getD "N/A" ++ "\n" ++
      "Published: " ++ r.publishedDate.getD "N/A" ++ "\n" ++
      "Author: " ++ r.author.getD "N/A" ++ "\n" ++
      (match r.text with
       | some t => "Content excerpt:\n" ++ excerpt t ++ "\n\n"
       | none => "") ++
      "\n" ++ "--- Article 2 ---\n[Error formatting this result]\n\n" := by
  obtain ⟨t, u, p, a, tx⟩ := r
  cases tx <;>
    simp [format_search_results, responseResults, formatEntry, List.enum, List.enumFrom,
      String.intercalate, String.intercalate.go, ← String.append_assoc,
      show toString 1 = "1" from rfl, show toString 2 = "2" from rfl]

/-- C8: on a fetch whose provider call returns (does not raise), the value
returned to the caller is the recovered document text truncated to the
first 100000 characters, hence of length `min 100000 (length of the
recovered text)`; in particular a document whose recovered content is
150000 characters long yields a returned value of exactly 100000
characters. -/
theorem claim_C8_fetch_truncation (st : ResearcherState) (url : String) (now : Nat)
    (resp : ScrapeResponse) :
    (get_full_content st url now (.ok resp)).2 = pyTruncate (extractMarkdown resp) 100000 ∧
    (get_full_content st url now (.ok resp)).2.length
      = min 100000 (extractMarkdown resp).length ∧
    ((extractMarkdown resp).length = 150000 →
      (get_full_content st url now (.ok resp)).2.length = 100000) := by
  have h2 : (get_full_content st url now (.ok resp)).2.length
      = min 100000 (extractMarkdown resp).length := by
    show (List.take 100000 (extractMarkdown resp).data).length
      = min 100000 (extractMarkdown resp).data.length
    rw [List.length_take]
  exact ⟨rfl, h2, fun h => by rw [h2, h]; omega⟩

/-- Witness for C8: a concrete 150000-character document is truncated to
exactly 100000 characters. -/
theorem claim_C8_witness :
    (extractMarkdown (.attrMarkdown ⟨List.replicate 150000 'a'⟩)).length = 150000 ∧
    (get_full_content (initial_state "claude-3-5-sonnet-latest" 5) "https://example.org" 0
      (.ok (.attrMarkdown ⟨List.replicate 150000 'a'⟩))).2.length = 100000 := by
  have h : (extractMarkdown (ScrapeResponse.attrMarkdown ⟨List.replicate 150000 'a'⟩)).length
      = 150000 := by
    show (List.replicate 150000 'a').length = 150000
    exact List.length_replicate 150000 'a'
  exact ⟨h, (claim_C8_fetch_truncation _ _ _ _).2.2 h⟩

/-- C10: on a fetch whose provider call returns content longer than 100000
characters, the appended `FetchRecord` logs the full pre-truncation length
(exceeding 100000) while the value returned to the caller has length
exactly 100000 — the logged and the returned length differ. -/
theorem claim_C10_logged_length_pretruncation (st : ResearcherState) (url : String)
    (now : Nat) (resp : ScrapeResponse) (h : 100000 < (extractMarkdown resp).length) :
    (∃ record : FetchRecord,
      (get_full_content st url now (.ok resp)).1.content_retrieval_history
        = st.content_retrieval_history ++ [record] ∧
      record.content_length = some (extractMarkdown resp).length ∧
      100000 < (extractMarkdown resp).length ∧
      record.content_length ≠ some (get_full_content st url now (.ok resp)).2.length) ∧
    (get_full_content st url now (.ok resp)).2.length = 100000 := by
  have hlen : (get_full_content st url now (.ok resp)).2.length = 100000 := by
    have h' : 100000 < (extractMarkdown resp).data.length := h
    show (List.take 100000 (extractMarkdown resp).data).length = 100000
    rw [List.length_take]
    omega
  refine ⟨⟨{ url := url, timestamp := now,
             success := extractMarkdown resp != "Error retrieving content",
             content_length := some (extractMarkdown resp).length, error := none },
           rfl, rfl, h, ?_⟩, hlen⟩
  rw [hlen]
  simp only [Option.some.injEq, ne_eq]
  omega

/-- Witness for C10: on the concrete 150000-character document the logged
length is 150000 while the returned value has length 100000. -/
theorem claim_C10_witness :
    100000 < (extractMarkdown (.attrMarkdown ⟨List.replicate 150000 'a'⟩)).length ∧
    ((∃ record : FetchRecord,
      (get_full_content (initial_state "claude-3-5-sonnet-latest" 5) "https://example.org" 7
        (.ok (.attrMarkdown ⟨List.replicate 150000 'a'⟩))).1.content_retrieval_history
        = (initial_state "claude-3-5-sonnet-latest" 5).content_retrieval_history ++ [record] ∧
      record.content_length
        = some (extractMarkdown (.attrMarkdown ⟨List.replicate 150000 'a'⟩)).length ∧
      100000 < (extractMarkdown (.attrMarkdown ⟨List.replicate 150000 'a'⟩)).length ∧
      record.content_length ≠ some
        (get_full_content (initial_state "claude-3-5-sonnet-latest" 5) "https://example.org" 7
          (.ok (.attrMarkdown ⟨List.replicate 150000 'a'⟩))).2.length) ∧
     (get_full_content (initial_state "claude-3-5-sonnet-latest" 5) "https://example.org" 7
        (.ok (.attrMarkdown ⟨List.replicate 150000 'a'⟩))).2.length = 100000) := by
  have h : 100000 <
      (extractMarkdown (ScrapeResponse.attrMarkdown ⟨List.replicate 150000 'a'⟩)).length := by
    have : (extractMarkdown (ScrapeResponse.attrMarkdown ⟨List.replicate 150000 'a'⟩)).length
        = 150000 := by
      show (List.replicate 150000 'a').length = 150000
      exact List.length_replicate 150000 'a'
    omega
  exact ⟨h, claim_C10_logged_length_pretruncation _ _ _ _ h⟩

/-- C2: for every query and any raised provider exception, `search_with_exa`
returns the sentinel empty result `none` and appends to the search history
exactly one `SearchRecord` carrying the exception text in its error field
and a result count of 0; the error is also reported as an `error` progress
event, and no exception propagates (the function is total). -/
theorem claim_C2_search_fault_contained (st : ResearcherState) (query : String)
    (num_results : Option Nat) (start_date end_date : Option String) (now : Nat)
    (e : String) :
    (search_with_exa st query num_results start_date end_date now (.raise e)).2 = none ∧
    (search_with_exa st query num_results start_date end_date now (.raise e)).1.search_history
      = st.search_history ++
        [{ query := query, timestamp := now, num_results := 0,
           start_date := start_date, end_date := end_date, error := some e }] ∧
    (search_with_exa st query num_results start_date end_date now (.raise e)).1.progress
      = st.progress ++ [⟨"Searching for: " ++ query, "search", none, none⟩,
                        ⟨"Search error: " ++ e, "error", none, none⟩] := by
  refine ⟨rfl, rfl, ?_⟩
  simp [search_with_exa, update_progress]

/-- A concrete iteration environment in which the model asks for a
`web_search`, the search provider raises, and the follow-up analysis model
call succeeds. -/
def searchFaultEnv : IterationEnv :=
  { firstCall := .ok [ContentBlock.toolUse "web_search" { query := some "metformin" } "toolu_1"]
    toolTime := 1
    exaOutcome := .raise "exa is down"
    scrapeOutcome := .raise "unused"
    analysisCall := .ok [ContentBlock.text "analysis of the empty results"] }

/-- C3 counterexample: an adapter exception is NOT returned to the caller as
a textual error message in place of the analysis text.  With the search
provider raising "exa is down" and both model calls succeeding, the
iteration returns the model's analysis text unchanged (the adapter error
was caught inside the adapter and reported only as an `error` progress
event and a failed `SearchRecord`), so the claim's "returned to the caller
as a textual error message in place of the analysis text" fails for
adapter errors. -/
theorem claim_C3_counterexample :
    (run_research_iteration (initial_state "claude-3-5-sonnet-latest" 5) searchFaultEnv).2
      = "analysis of the empty results" ∧
    "analysis of the empty results" ≠ "An error occurred: exa is down" ∧
    (⟨"Search error: exa is down", "error", none, none⟩ : ProgressEvent)
      ∈ (run_research_iteration (initial_state "claude-3-5-sonnet-latest" 5)
          searchFaultEnv).1.progress := by
  decide

/-- C3 amended: an exception raised by a model-completion call during the
iteration (on the first call, or on the follow-up analysis call after a
`web_search` or a `get_article_content` tool use) is caught inside the
iteration, reported as an `error` progress event and returned as the
textual message "An error occurred: …" in place of the analysis text; an
adapter exception (search or fetch) is instead caught inside the adapter
and reported as an `error` progress event, while the iteration still
returns the model's analysis text.  In every case the function returns a
value, so the surrounding loop proceeds to the next iteration. -/
theorem claim_C3_amended_error_containment :
    (∀ (st : ResearcherState) (env : IterationEnv) (e : String),
      env.firstCall = .raise e →
        (run_research_iteration st env).2 = "An error occurred: " ++ e ∧
        (⟨"Error during research iteration: " ++ e, "error", none, none⟩ : ProgressEvent)
          ∈ (run_research_iteration st env).1.progress) ∧
    (∀ (st : ResearcherState) (env : IterationEnv) (content : List ContentBlock)
       (input : ToolInput) (id e : String),
      env.firstCall = .ok content →
      findFirstTool content = some ("web_search", input, id) →
      env.analysisCall = .raise e →
        (run_research_iteration st env).2 = "An error occurred: " ++ e ∧
        (⟨"Error during research iteration: " ++ e, "error", none, none⟩ : ProgressEvent)
          ∈ (run_research_iteration st env).1.progress) ∧
    (∀ (st : ResearcherState) (env : IterationEnv) (content : List ContentBlock)
       (input : ToolInput) (id e : String),
      env.firstCall = .ok content →
      findFirstTool content = some ("get_article_content", input, id) →
      env.analysisCall = .raise e →
        (run_research_iteration st env).2 = "An error occurred: " ++ e ∧
        (⟨"Error during research iteration: " ++ e, "error", none, none⟩ : ProgressEvent)
          ∈ (run_research_iteration st env).1.progress) ∧
    (∀ (st : ResearcherState) (env : IterationEnv) (content : List ContentBlock)
       (input : ToolInput) (id e : String) (acontent : List ContentBlock),
      env.firstCall = .ok content →
      findFirstTool content = some ("web_search", input, id) →
      env.exaOutcome = .raise e →
      env.analysisCall = .ok acontent →
        (run_research_iteration st env).2 = extract_text_content acontent ∧
        (⟨"Search error: " ++ e, "error", none, none⟩ : ProgressEvent)
          ∈ (run_research_iteration st env).1.progress) ∧
    (∀ (st : ResearcherState) (env : IterationEnv) (content : List ContentBlock)
       (input : ToolInput) (id e : String) (acontent : List ContentBlock),
      env.firstCall = .ok content →
      findFirstTool content = some ("get_article_content", input, id) →
      env.scrapeOutcome = .raise e →
      env.analysisCall = .ok acontent →
        (run_research_iteration st env).2 = extract_text_content acontent ∧
        (⟨"Content retrieval error: " ++ e, "error", none, none⟩ : ProgressEvent)
          ∈ (run_research_iteration st env).1.progress) := by
  refine ⟨?_, ?_, ?_, ?_, ?_⟩
  · intro st env e h
    constructor <;> simp [run_research_iteration, h, update_progress]
  · intro st env content input id e h1 h2 h3
    constructor <;>
      simp [run_research_iteration, h1, h2, h3, update_progress, appendAssistant,
        appendToolResult]
  · intro st env content input id e h1 h2 h3
    constructor <;>
      simp [run_research_iteration, h1, h2, h3, update_progress, appendAssistant,
        appendToolResult]
  · intro st env content input id e acontent h1 h2 h3 h4
    constructor <;>
      simp [run_research_iteration, h1, h2, h3, h4, update_progress, appendAssistant,
        appendToolResult, search_with_exa]
  · intro st env content input id e acontent h1 h2 h3 h4
    constructor <;>
      simp [run_research_iteration, h1, h2, h3, h4, update_progress, appendAssistant,
        appendToolResult, get_full_content]

/-- A concrete iteration environment in which the first model call raises. -/
def modelFaultEnv : IterationEnv :=
  { firstCall := .raise "model down"
    toolTime := 1
    exaOutcome := .ok (.attrStyle [])
    scrapeOutcome := .raise "unused"
    analysisCall := .ok [ContentBlock.text "never reached"] }

/-- A concrete iteration environment in which the model asks for a
`web_search` and the follow-up analysis model call raises. -/
def analysisFaultEnv : IterationEnv :=
  { firstCall := .ok [ContentBlock.toolUse "web_search" { query := some "metformin" } "toolu_1"]
    toolTime := 1
    exaOutcome := .ok (.attrStyle [])
    scrapeOutcome := .raise "unused"
    analysisCall := .raise "analysis call failed" }

/-- A concrete iteration environment in which the model asks for
`get_article_content` and the follow-up analysis model call raises. -/
def fetchAnalysisFaultEnv : IterationEnv :=
  { firstCall := .ok [ContentBlock.toolUse "get_article_content"
      { url := some "https://example.org/a" } "toolu_2"]
    toolTime := 1
    exaOutcome := .ok (.attrStyle [])
    scrapeOutcome := .ok (.attrMarkdown "the document")
    analysisCall := .raise "analysis after fetch failed" }

/-- A concrete iteration environment in which the model asks for
`get_article_content`, the scraper raises, and both model calls succeed. -/
def fetchFaultEnv : IterationEnv :=
  { firstCall := .ok [ContentBlock.toolUse "get_article_content"
      { url := some "https://example.org/a" } "toolu_2"]
    toolTime := 1
    exaOutcome := .ok (.attrStyle [])
    scrapeOutcome := .raise "firecrawl is down"
    analysisCall := .ok [ContentBlock.text "analysis of the error sentinel"] }

/-- Witness for the amended C3, exercising all five conjuncts on concrete
environments: first-call model fault; analysis-call model fault after a
`web_search` and after a `get_article_content`; and search-adapter and
fetch-adapter faults with successful model calls. -/
theorem claim_C3_amended_witness :
    ((run_research_iteration (initial_state "m" 5) modelFaultEnv).2
        = "An error occurred: " ++ "model down" ∧
      (⟨"Error during research iteration: " ++ "model down", "error", none, none⟩ : ProgressEvent)
        ∈ (run_research_iteration (initial_state "m" 5) modelFaultEnv).1.progress) ∧
    ((run_research_iteration (initial_state "m" 5) analysisFaultEnv).2
        = "An error occurred: " ++ "analysis call failed" ∧
      (⟨"Error during research iteration: " ++ "analysis call failed", "error", none, none⟩ :
          ProgressEvent)
        ∈ (run_research_iteration (initial_state "m" 5) analysisFaultEnv).1.progress) ∧
    ((run_research_iteration (initial_state "m" 5) fetchAnalysisFaultEnv).2
        = "An error occurred: " ++ "analysis after fetch failed" ∧
      (⟨"Error during research iteration: " ++ "analysis after fetch failed", "error",
          none, none⟩ : ProgressEvent)
        ∈ (run_research_iteration (initial_state "m" 5) fetchAnalysisFaultEnv).1.progress) ∧
    ((run_research_iteration (initial_state "m" 5) searchFaultEnv).2
        = extract_text_content [ContentBlock.text "analysis of the empty results"] ∧
      (⟨"Search error: " ++ "exa is down", "error", none, none⟩ : ProgressEvent)
        ∈ (run_research_iteration (initial_state "m" 5) searchFaultEnv).1.progress) ∧
    ((run_research_iteration (initial_state "m" 5) fetchFaultEnv).2
        = extract_text_content [ContentBlock.text "analysis of the error sentinel"] ∧
      (⟨"Content retrieval error: " ++ "firecrawl is down", "error", none, none⟩ : ProgressEvent)
        ∈ (run_research_iteration (initial_state "m" 5) fetchFaultEnv).1.progress) :=
  ⟨claim_C3_amended_error_containment.1 (initial_state "m" 5) modelFaultEnv "model down" rfl,
   claim_C3_amended_error_containment.2.1 (initial_state "m" 5) analysisFaultEnv
     [ContentBlock.toolUse "web_search" { query := some "metformin" } "toolu_1"]
     { query := some "metformin" } "toolu_1" "analysis call failed" rfl (by decide) rfl,
   claim_C3_amended_error_containment.2.2.1 (initial_state "m" 5) fetchAnalysisFaultEnv
     [ContentBlock.toolUse "get_article_content" { url := some "https://example.org/a" }
       "toolu_2"]
     { url := some "https://example.org/a" } "toolu_2" "analysis after fetch failed"
     rfl (by decide) rfl,
   claim_C3_amended_error_containment.2.2.2.1 (initial_state "m" 5) searchFaultEnv
     [ContentBlock.toolUse "web_search" { query := some "metformin" } "toolu_1"]
     { query := some "metformin" } "toolu_1" "exa is down"
     [ContentBlock.text "analysis of the empty results"] rfl (by decide) rfl rfl,
   claim_C3_amended_error_containment.2.2.2.2 (initial_state "m" 5) fetchFaultEnv
     [ContentBlock.toolUse "get_article_content" { url := some "https://example.org/a" }
       "toolu_2"]
     { url := some "https://example.org/a" } "toolu_2" "firecrawl is down"
     [ContentBlock.text "analysis of the error sentinel"] rfl (by decide) rfl rfl⟩

/-- Block lists holding no recognized tool-use block are skipped by the
driver's scan. -/
lemma findFirstTool_append_of_none {pre : List ContentBlock}
    (h : findFirstTool pre = none) (rest : List ContentBlock) :
    findFirstTool (pre ++ rest) = findFirstTool rest := by
  induction pre with
  | nil => rfl
  | cons b bs ih =>
      cases b with
      | text s =>
          simp only [findFirstTool] at h
          simpa only [List.cons_append, findFirstTool] using ih h
      | toolUse n i d =>
          by_cases hn : (n = "web_search" ∨ n = "get_article_content")
          · simp [findFirstTool, hn] at h
          · simp only [findFirstTool, if_neg hn] at h
            simpa only [List.cons_append, findFirstTool, if_neg hn] using ih h

/-- The content list of a model response whose FIRST tool-use block carries
an unrecognized tool name and whose second is a `web_search`. -/
def mysteryFirstContent : List ContentBlock :=
  [ContentBlock.toolUse "mystery_tool" { query := some "alpha" } "idA",
   ContentBlock.toolUse "web_search" { query := some "beta" } "idB"]

/-- A concrete iteration environment delivering `mysteryFirstContent`. -/
def mysteryFirstEnv : IterationEnv :=
  { firstCall := .ok mysteryFirstContent
    toolTime := 3
    exaOutcome := .ok (.attrStyle [])
    scrapeOutcome := .raise "unused"
    analysisCall := .ok [ContentBlock.text "done"] }

/-- C9 counterexample: the executed invocation is not always the FIRST
tool-invocation block of the response.  On a response whose first block is
a tool-use block named `mystery_tool` (query "alpha") and whose second is a
`web_search` (query "beta"), the driver skips the first block entirely and
executes the second: the run records exactly one search, for "beta", and
nothing for "alpha". -/
theorem claim_C9_counterexample :
    mysteryFirstContent.head? = some (ContentBlock.toolUse "mystery_tool"
      { query := some "alpha" } "idA") ∧
    (run_research_iteration (initial_state "m" 5) mysteryFirstEnv).1.search_history.map
      SearchRecord.query = ["beta"] ∧
    "beta" ≠ "alpha" := by
  decide

/-- An iteration environment with its first model call replaced by a
successful response holding the given content blocks. -/
def withFirst (env : IterationEnv) (content : List ContentBlock) : IterationEnv :=
  { env with firstCall := .ok content }

/-- C9 amended: a single driver call executes exactly one tool invocation —
the first tool-use block bearing a recognized tool name (`web_search` or
`get_article_content`); tool-use blocks with unrecognized names before it
and all blocks after it are not executed.  Concretely, with any prefix
`pre` holding no recognized tool-use block: a `web_search` block makes the
run append exactly one `SearchRecord`, carrying that block's query, and
leave the fetch history unchanged, whatever tool-use blocks follow in
`post`; symmetrically for `get_article_content` and the fetch history. -/
theorem claim_C9_amended_first_recognized_tool_only (st : ResearcherState)
    (env : IterationEnv) (pre post : List ContentBlock) (input : ToolInput) (id : String)
    (hpre : findFirstTool pre = none) :
    (∃ r : SearchRecord,
      (run_research_iteration st (withFirst env
          (pre ++ ContentBlock.toolUse "web_search" input id :: post))).1.search_history
        = st.search_history ++ [r] ∧ r.query = input.query.getD "") ∧
    (run_research_iteration st (withFirst env
        (pre ++ ContentBlock.toolUse "web_search" input id :: post))
      ).1.content_retrieval_history = st.content_retrieval_history ∧
    (∃ c : FetchRecord,
      (run_research_iteration st (withFirst env
          (pre ++ ContentBlock.toolUse "get_article_content" input id :: post))
        ).1.content_retrieval_history
        = st.content_retrieval_history ++ [c] ∧ c.url = input.url.getD "") ∧
    (run_research_iteration st (withFirst env
        (pre ++ ContentBlock.toolUse "get_article_content" input id :: post))
      ).1.search_history = st.search_history := by
  have hfw : findFirstTool (pre ++ ContentBlock.toolUse "web_search" input id :: post)
      = some ("web_search", input, id) := by
    rw [findFirstTool_append_of_none hpre]
    simp [findFirstTool]
  have hfa : findFirstTool (pre ++ ContentBlock.toolUse "get_article_content" input id :: post)
      = some ("get_article_content", input, id) := by
    rw [findFirstTool_append_of_none hpre]
    simp [findFirstTool]
  refine ⟨?_, ?_, ?_, ?_⟩
  · cases hx : env.exaOutcome with
    | ok resp =>
        refine ⟨{ query := input.query.getD "",
                  timestamp := env.toolTime,
                  num_results := countSearchResults resp,
                  start_date := input.start_date,
                  end_date := input.end_date,
                  error := none }, ?_, rfl⟩
        cases ha : env.analysisCall <;>
          simp [run_research_iteration, withFirst, hfw, hx, ha, search_with_exa,
            update_progress, appendAssistant, appendToolResult]
    | raise e =>
        refine ⟨{ query := input.query.getD "",
                  timestamp := env.toolTime,
                  num_results := 0,
                  start_date := input.start_date,
                  end_date := input.end_date,
                  error := some e }, ?_, rfl⟩
        cases ha : env.analysisCall <;>
          simp [run_research_iteration, withFirst, hfw, hx, ha, search_with_exa,
            update_progress, appendAssistant, appendToolResult]
  · cases hx : env.exaOutcome <;> cases ha : env.analysisCall <;>
      simp [run_research_iteration, withFirst, hfw, hx, ha, search_with_exa,
        update_progress, appendAssistant, appendToolResult]
  · cases hx : env.scrapeOutcome with
    | ok resp =>
        refine ⟨{ url := input.url.getD "",
                  timestamp := env.toolTime,
                  success := extractMarkdown resp != "Error retrieving content",
                  content_length := some (extractMarkdown resp).length,
                  error := none }, ?_, rfl⟩
        cases ha : env.analysisCall <;>
          simp [run_research_iteration, withFirst, hfa, hx, ha, get_full_content,
            update_progress, appendAssistant, appendToolResult]
    | raise e =>
        refine ⟨{ url := input.url.getD "",
                  timestamp := env.toolTime,
                  success := false,
                  content_length := none,
                  error := some e }, ?_, rfl⟩
        cases ha : env.analysisCall <;>
          simp [run_research_iteration, withFirst, hfa, hx, ha, get_full_content,
            update_progress, appendAssistant, appendToolResult]
  · cases hx : env.scrapeOutcome <;> cases ha : env.analysisCall <;>
      simp [run_research_iteration, withFirst, hfa, hx, ha, get_full_content,
        update_progress, appendAssistant, appendToolResult]

/-- Witness for the amended C9: concrete prefix holding one unrecognized
tool-use block, concrete recognized block, concrete trailing blocks. -/
theorem claim_C9_amended_witness :
    findFirstTool [ContentBlock.toolUse "mystery_tool" { query := some "alpha" } "idA"]
      = none ∧
    ((∃ r : SearchRecord,
      (run_research_iteration (initial_state "m" 5) (withFirst mysteryFirstEnv
          ([ContentBlock.toolUse "mystery_tool" { query := some "alpha" } "idA"] ++
            ContentBlock.toolUse "web_search" { query := some "beta" } "idB" ::
              [ContentBlock.toolUse "web_search" { query := some "gamma" } "idC"]))
        ).1.search_history
        = (initial_state "m" 5).search_history ++ [r] ∧
      r.query = ({ query := some "beta" } : ToolInput).query.getD "") ∧
    (run_research_iteration (initial_state "m" 5) (withFirst mysteryFirstEnv
        ([ContentBlock.toolUse "mystery_tool" { query := some "alpha" } "idA"] ++
          ContentBlock.toolUse "web_search" { query := some "beta" } "idB" ::
            [ContentBlock.toolUse "web_search" { query := some "gamma" } "idC"]))
      ).1.content_retrieval_history = (initial_state "m" 5).content_retrieval_history ∧
    (∃ c : FetchRecord,
      (run_research_iteration (initial_state "m" 5) (withFirst mysteryFirstEnv
          ([ContentBlock.toolUse "mystery_tool" { query := some "alpha" } "idA"] ++
            ContentBlock.toolUse "get_article_content" { query := some "beta" } "idB" ::
              [ContentBlock.toolUse "web_search" { query := some "gamma" } "idC"]))
        ).1.content_retrieval_history
        = (initial_state "m" 5).content_retrieval_history ++ [c] ∧
      c.url = ({ query := some "beta" } : ToolInput).url.getD "") ∧
    (run_research_iteration (initial_state "m" 5) (withFirst mysteryFirstEnv
        ([ContentBlock.toolUse "mystery_tool" { query := some "alpha" } "idA"] ++
          ContentBlock.toolUse "get_article_content" { query := some "beta" } "idB" ::
            [ContentBlock.toolUse "web_search" { query := some "gamma" } "idC"]))
      ).1.search_history = (initial_state "m" 5).search_history) :=
  ⟨by decide,
   claim_C9_amended_first_recognized_tool_only (initial_state "m" 5) mysteryFirstEnv
     [ContentBlock.toolUse "mystery_tool" { query := some "alpha" } "idA"]
     [ContentBlock.toolUse "web_search" { query := some "gamma" } "idC"]
     { query := some "beta" } "idB" (by decide)⟩

/-- C1: when the final-synthesis model call raises, `run_research_loop`
returns (never throws) the textual error report together with a partial
research-data record that carries the error string, has no final report,
and holds exactly the same iteration records, search history and
content-retrieval history as the run would have returned had synthesis
succeeded (the loop phase is identical; only the synthesis tail differs) —
which are exactly the records accumulated by the loop phase. -/
theorem claim_C1_synthesis_failure_degraded_return (st : ResearcherState) (q : String)
    (N : Nat) (ie : Nat → IterationEnv) (itime : Nat → Nat) (e : String) (ft : Nat)
    (c : List ContentBlock) (ft2 : Nat) :
    (run_research_loop st q N ⟨ie, itime, .raise e, ft⟩).1
      = "An error occurred while generating the final report: " ++ e ∧
    (run_research_loop st q N ⟨ie, itime, .raise e, ft⟩).2.error = some e ∧
    (run_research_loop st q N ⟨ie, itime, .raise e, ft⟩).2.final_report = none ∧
    (run_research_loop st q N ⟨ie, itime, .raise e, ft⟩).2.iterations
      = (run_research_loop st q N ⟨ie, itime, .ok c, ft2⟩).2.iterations ∧
    (run_research_loop st q N ⟨ie, itime, .raise e, ft⟩).2.search_history
      = (run_research_loop st q N ⟨ie, itime, .ok c, ft2⟩).2.search_history ∧
    (run_research_loop st q N ⟨ie, itime, .raise e, ft⟩).2.content_retrieval_history
      = (run_research_loop st q N ⟨ie, itime, .ok c, ft2⟩).2.content_retrieval_history ∧
    (run_research_loop st q N ⟨ie, itime, .raise e, ft⟩).2.iterations
      = (loopPhase q N ie itime (initialize_conversation (update_progress (update_progress st
          ("Starting research on: '" ++ q ++ "'") "info")
          ("Planning " ++ toString N ++ " research iterations") "info") q)).research_iterations :=
  ⟨rfl, rfl, rfl, rfl, rfl, rfl, rfl⟩

/-- The driver never touches the iteration ledger: on every path of
`run_research_iteration` the `research_iterations` field is unchanged
(researcher.py lines 275-495 only append to `messages`,
`search_history`, `content_retrieval_history` and emit progress events). -/
lemma run_research_iteration_iterations (st : ResearcherState) (env : IterationEnv) :
    (run_research_iteration st env).1.research_iterations = st.research_iterations := by
  cases hfc : env.firstCall with
  | raise e => simp [run_research_iteration, hfc, update_progress]
  | ok content =>
      cases hft : findFirstTool content with
      | none => simp [run_research_iteration, hfc, hft, update_progress, appendAssistant]
      | some t =>
          obtain ⟨name, input, id⟩ := t
          by_cases hn : name = "web_search"
          · cases hx : env.exaOutcome <;> cases ha : env.analysisCall <;>
              simp [run_research_iteration, hfc, hft, hn, hx, ha, search_with_exa,
                update_progress, appendAssistant, appendToolResult]
          · cases hx : env.scrapeOutcome <;> cases ha : env.analysisCall <;>
              simp [run_research_iteration, hfc, hft, hn, hx, ha, get_full_content,
                update_progress, appendAssistant, appendToolResult]

/-- The driver only appends to the two adapter histories, and every record
it appends is stamped with the iteration's tool-call time. -/
lemma run_research_iteration_history_effects (st : ResearcherState) (env : IterationEnv) :
    ∃ ns nc,
      (run_research_iteration st env).1.search_history = st.search_history ++ ns ∧
      (run_research_iteration st env).1.content_retrieval_history
        = st.content_retrieval_history ++ nc ∧
      (∀ r ∈ ns, r.timestamp = env.toolTime) ∧
      (∀ c ∈ nc, c.timestamp = env.toolTime) := by
  cases hfc : env.firstCall with
  | raise e =>
      refine ⟨[], [], ?_, ?_, by simp, by simp⟩ <;>
        simp [run_research_iteration, hfc, update_progress]
  | ok content =>
      cases hft : findFirstTool content with
      | none =>
          refine ⟨[], [], ?_, ?_, by simp, by simp⟩ <;>
            simp [run_research_iteration, hfc, hft, update_progress, appendAssistant]
      | some t =>
          obtain ⟨name, input, id⟩ := t
          by_cases hn : name = "web_search"
          · cases hx : env.exaOutcome with
            | ok resp =>
                refine ⟨[{ query := input.query.getD "",
                           timestamp := env.toolTime,
                           num_results := countSearchResults resp,
                           start_date := input.start_date,
                           end_date := input.end_date,
                           error := none }], [], ?_, ?_, by simp, by simp⟩ <;>
                  cases ha : env.analysisCall <;>
                    simp [run_research_iteration, hfc, hft, hn, hx, ha, search_with_exa,
                      update_progress, appendAssistant, appendToolResult]
            | raise e =>
                refine ⟨[{ query := input.query.getD "",
                           timestamp := env.toolTime,
                           num_results := 0,
                           start_date := input.start_date,
                           end_date := input.end_date,
                           error := some e }], [], ?_, ?_, by simp, by simp⟩ <;>
                  cases ha : env.analysisCall <;>
                    simp [run_research_iteration, hfc, hft, hn, hx, ha, search_with_exa,
                      update_progress, appendAssistant, appendToolResult]
          · cases hx : env.scrapeOutcome with
            | ok resp =>
                refine ⟨[], [{ url := input.url.getD "",
                               timestamp := env.toolTime,
                               success := extractMarkdown resp != "Error retrieving content",
                               content_length := some (extractMarkdown resp).length,
                               error := none }], ?_, ?_, by simp, by simp⟩ <;>
                  cases ha : env.analysisCall <;>
                    simp [run_research_iteration, hfc, hft, hn, hx, ha, get_full_content,
                      update_progress, appendAssistant, appendToolResult]
            | raise e =>
                refine ⟨[], [{ url := input.url.getD "",
                               timestamp := env.toolTime,
                               success := false,
                               content_length := none,
                               error := some e }], ?_, ?_, by simp, by simp⟩ <;>
                  cases ha : env.analysisCall <;>
                    simp [run_research_iteration, hfc, hft, hn, hx, ha, get_full_content,
                      update_progress, appendAssistant, appendToolResult]

/-- Each loop pass appends exactly one `IterationRecord`, carrying the
1-based index of the pass. -/
lemma loopStep_iterations_map (q : String) (m : Nat) (ie : Nat → IterationEnv)
    (itime : Nat → Nat) (st : ResearcherState) (i : Nat) :
    ((loopStep q m ie itime st i).research_iterations).map IterationRecord.iteration
      = st.research_iterations.map IterationRecord.iteration ++ [i + 1] := by
  by_cases him : i < m - 1 <;>
    simp [loopStep, him, run_research_iteration_iterations, update_progress]

/-- Folding the loop body over `0..N-1` appends `N` iteration records with
indices `1..N` after whatever was there before. -/
lemma loopSteps_iterations_map (q : String) (m : Nat) (ie : Nat → IterationEnv)
    (itime : Nat → Nat) :
    ∀ (N : Nat) (st : ResearcherState),
      (((List.range N).foldl (loopStep q m ie itime) st).research_iterations).map
          IterationRecord.iteration
        = st.research_iterations.map IterationRecord.iteration
          ++ (List.range N).map (· + 1) := by
  intro N
  induction N with
  | zero => intro st; simp
  | succ k ih =>
      intro st
      rw [List.range_succ, List.foldl_append, List.foldl_cons, List.foldl_nil,
        loopStep_iterations_map, ih st]
      simp [List.append_assoc]

/-- C5: starting from a fresh session, the loop phase of
`run_research_loop` appends exactly `N` `IterationRecord`s, with 1-based
iteration indices `1..N`, before the final-synthesis prompt is issued. -/
theorem claim_C5_exactly_N_iteration_records (q mdl : String) (rps N : Nat)
    (ie : Nat → IterationEnv) (itime : Nat → Nat) :
    ((loopPhase q N ie itime (initialize_conversation (initial_state mdl rps) q)
        ).research_iterations).map IterationRecord.iteration
      = (List.range N).map (· + 1) ∧
    (loopPhase q N ie itime (initialize_conversation (initial_state mdl rps) q)
      ).research_iterations.length = N := by
  have h := loopSteps_iterations_map q N ie itime N
    (initialize_conversation (initial_state mdl rps) q)
  have h1 : ((loopPhase q N ie itime (initialize_conversation (initial_state mdl rps) q)
      ).research_iterations).map IterationRecord.iteration = (List.range N).map (· + 1) := by
    simpa [loopPhase, initialize_conversation, initial_state] using h
  refine ⟨h1, ?_⟩
  have h2 := congrArg List.length h1
  simpa using h2

/-- The driver call a loop pass makes: `run_research_iteration` on the state
after the pass's `iteration` progress event. -/
def stepDriver (_q : String) (m : Nat) (ie : Nat → IterationEnv) (_itime : Nat → Nat)
    (s : ResearcherState) (i : Nat) : ResearcherState × String :=
  run_research_iteration (update_progress s
    ("Research iteration " ++ toString (i + 1) ++ "/" ++ toString m)
    "iteration" (some (i + 1)) (some m)) (ie i)

/-- Projection through the follow-up-prompt conditional of `loopStep`: both
branches carry the same iteration ledger. -/
lemma ite_state_research_iterations (c : Prop) [Decidable c]
    (m1 m2 : List Message) (mo : String) (ri : List IterationRecord)
    (sh : List SearchRecord) (ch : List FetchRecord) (rp : Nat)
    (pg1 pg2 : List ProgressEvent) :
    (if c then ResearcherState.mk m1 mo ri sh ch rp pg1
     else ResearcherState.mk m2 mo ri sh ch rp pg2).research_iterations = ri := by
  split <;> rfl

/-- Companion of `ite_state_research_iterations` for the search history. -/
lemma ite_state_search_history (c : Prop) [Decidable c]
    (m1 m2 : List Message) (mo : String) (ri : List IterationRecord)
    (sh : List SearchRecord) (ch : List FetchRecord) (rp : Nat)
    (pg1 pg2 : List ProgressEvent) :
    (if c then ResearcherState.mk m1 mo ri sh ch rp pg1
     else ResearcherState.mk m2 mo ri sh ch rp pg2).search_history = sh := by
  split <;> rfl

/-- Companion of `ite_state_research_iterations` for the fetch history. -/
lemma ite_state_content_history (c : Prop) [Decidable c]
    (m1 m2 : List Message) (mo : String) (ri : List IterationRecord)
    (sh : List SearchRecord) (ch : List FetchRecord) (rp : Nat)
    (pg1 pg2 : List ProgressEvent) :
    (if c then ResearcherState.mk m1 mo ri sh ch rp pg1
     else ResearcherState.mk m2 mo ri sh ch rp pg2).content_retrieval_history = ch := by
  split <;> rfl

/-- What one loop pass does to the three record lists: the histories are the
driver's, and the iteration ledger gains one record whose slices follow the
timestamp-attribution rule evaluated against the ledger's previous last
record. -/
lemma loopStep_characterization (q : String) (m : Nat) (ie : Nat → IterationEnv)
    (itime : Nat → Nat) (s : ResearcherState) (i : Nat) :
    (loopStep q m ie itime s i).search_history
      = (stepDriver q m ie itime s i).1.search_history ∧
    (loopStep q m ie itime s i).content_retrieval_history
      = (stepDriver q m ie itime s i).1.content_retrieval_history ∧
    (loopStep q m ie itime s i).research_iterations
      = s.research_iterations ++
        [{ iteration := i + 1,
           query := q,
           response := (stepDriver q m ie itime s i).2,
           search_queries :=
             if i = 0 then (stepDriver q m ie itime s i).1.search_history
             else match s.research_iterations.getLast? with
               | some prev => (stepDriver q m ie itime s i).1.search_history.filter
                   (fun r => prev.timestamp < r.timestamp)
               | none => (stepDriver q m ie itime s i).1.search_history,
           content_retrievals :=
             if i = 0 then (stepDriver q m ie itime s i).1.content_retrieval_history
             else match s.research_iterations.getLast? with
               | some prev => (stepDriver q m ie itime s i).1.content_retrieval_history.filter
                   (fun c => prev.timestamp < c.timestamp)
               | none => (stepDriver q m ie itime s i).1.content_retrieval_history,
           timestamp := itime i }] := by
  by_cases hi0 : i = 0 <;> cases hlast : s.research_iterations.getLast? <;>
    simp [loopStep, stepDriver, hi0, hlast, run_research_iteration_iterations,
      update_progress, ite_state_research_iterations, ite_state_search_history,
      ite_state_content_history]

/-- `stepDriver` only appends to the two histories, stamping every appended
record with the pass's tool-call time. -/
lemma stepDriver_history_effects (q : String) (m : Nat) (ie : Nat → IterationEnv)
    (itime : Nat → Nat) (s : ResearcherState) (i : Nat) :
    ∃ ns nc,
      (stepDriver q m ie itime s i).1.search_history = s.search_history ++ ns ∧
      (stepDriver q m ie itime s i).1.content_retrieval_history
        = s.content_retrieval_history ++ nc ∧
      (∀ r ∈ ns, r.timestamp = (ie i).toolTime) ∧
      (∀ c ∈ nc, c.timestamp = (ie i).toolTime) := by
  obtain ⟨ns, nc, h1, h2, h3, h4⟩ := run_research_iteration_history_effects
    (update_progress s ("Research iteration " ++ toString (i + 1) ++ "/" ++ toString m)
      "iteration" (some (i + 1)) (some m)) (ie i)
  exact ⟨ns, nc, h1, h2, h3, h4⟩

/-- The partition invariant carried through the loop: after `N` passes from
a fresh session, the ledger's timestamps are the pass times, each history
is exactly the concatenation of the ledger's per-iteration slices (the
attribution partitions the histories), and every record is stamped no
later than any pass time from the last completed pass on.  Requires the
run's timestamps to be strictly increasing across iterations: each pass's
tool-call time is at most that pass's completion time, and each completion
time is strictly before the next pass's tool-call time. -/
lemma loopSteps_partition (q : String) (m : Nat) (ie : Nat → IterationEnv)
    (itime : Nat → Nat)
    (H1 : ∀ i, (ie i).toolTime ≤ itime i)
    (H2 : ∀ i, itime i < (ie (i + 1)).toolTime) :
    ∀ (N : Nat) (st : ResearcherState),
      st.research_iterations = [] → st.search_history = [] →
      st.content_retrieval_history = [] →
      ((List.range N).foldl (loopStep q m ie itime) st).research_iterations.map
          IterationRecord.timestamp = (List.range N).map itime ∧
      ((List.range N).foldl (loopStep q m ie itime) st).search_history
        = (((List.range N).foldl (loopStep q m ie itime) st).research_iterations.map
            IterationRecord.search_queries).flatten ∧
      ((List.range N).foldl (loopStep q m ie itime) st).content_retrieval_history
        = (((List.range N).foldl (loopStep q m ie itime) st).research_iterations.map
            IterationRecord.content_retrievals).flatten ∧
      (∀ r ∈ ((List.range N).foldl (loopStep q m ie itime) st).search_history,
        ∀ j, N ≤ j + 1 → r.timestamp ≤ itime j) ∧
      (∀ c ∈ ((List.range N).foldl (loopStep q m ie itime) st).content_retrieval_history,
        ∀ j, N ≤ j + 1 → c.timestamp ≤ itime j) := by
  have hmono : Monotone itime :=
    (strictMono_nat_of_lt_succ (fun n => lt_of_lt_of_le (H2 n) (H1 (n + 1)))).monotone
  intro N
  induction N with
  | zero =>
      intro st h1 h2 h3
      refine ⟨?_, ?_, ?_, ?_, ?_⟩ <;> simp [h1, h2, h3]
  | succ k ih =>
      intro st h1 h2 h3
      obtain ⟨A, B, C, D, E⟩ := ih st h1 h2 h3
      rw [List.range_succ, List.foldl_append, List.foldl_cons, List.foldl_nil]
      set sk := (List.range k).foldl (loopStep q m ie itime) st with hsk
      obtain ⟨L1, L2, L3⟩ := loopStep_characterization q m ie itime sk k
      obtain ⟨ns, nc, hs, hc, hts, htc⟩ := stepDriver_history_effects q m ie itime sk k
      -- the slices attributed to this pass are exactly this pass's new records
      have hsliceS : (if k = 0 then (stepDriver q m ie itime sk k).1.search_history
          else match sk.research_iterations.getLast? with
            | some prev => (stepDriver q m ie itime sk k).1.search_history.filter
                (fun r => prev.timestamp < r.timestamp)
            | none => (stepDriver q m ie itime sk k).1.search_history) = ns := by
        rcases Nat.eq_zero_or_pos k with hk0 | hkpos
        · subst hk0
          have hempty : sk.search_history = [] := by
            rw [B]
            have : sk.research_iterations = [] := by
              have := congrArg List.length A
              simpa using List.eq_nil_of_length_eq_zero (by simpa using this)
            simp [this]
          simp [hs, hempty]
        · obtain ⟨j, rfl⟩ : ∃ j, k = j + 1 := ⟨k - 1, (Nat.succ_pred_eq_of_pos hkpos).symm⟩
          have hlast : ∃ prev, sk.research_iterations.getLast? = some prev ∧
              prev.timestamp = itime j := by
            have hA := congrArg List.getLast? A
            rw [List.getLast?_map, List.getLast?_map, List.range_succ,
              List.getLast?_concat] at hA
            obtain ⟨prev, hp1, hp2⟩ := Option.map_eq_some'.mp hA
            exact ⟨prev, hp1, hp2⟩
          obtain ⟨prev, hp1, hp2⟩ := hlast
          have hne : ¬ (j + 1 = 0) := by omega
          rw [if_neg hne]
          simp only [hp1]
          rw [hs, List.filter_append]
          have hold : sk.search_history.filter (fun r => prev.timestamp < r.timestamp)
              = [] := by
            rw [List.filter_eq_nil_iff]
            intro r hr
            have := D r hr j (by omega)
            simp only [decide_eq_true_eq]
            omega
          have hnew : ns.filter (fun r => prev.timestamp < r.timestamp) = ns := by
            rw [List.filter_eq_self]
            intro r hr
            have h' := hts r hr
            have h'' := H2 j
            simp only [decide_eq_true_eq]
            omega
          rw [hold, hnew, List.nil_append]
      have hsliceC : (if k = 0 then (stepDriver q m ie itime sk k).1.content_retrieval_history
          else match sk.research_iterations.getLast? with
            | some prev => (stepDriver q m ie itime sk k).1.content_retrieval_history.filter
                (fun c => prev.timestamp < c.timestamp)
            | none => (stepDriver q m ie itime sk k).1.content_retrieval_history) = nc := by
        rcases Nat.eq_zero_or_pos k with hk0 | hkpos
        · subst hk0
          have hempty : sk.content_retrieval_history = [] := by
            rw [C]
            have : sk.research_iterations = [] := by
              have := congrArg List.length A
              simpa using List.eq_nil_of_length_eq_zero (by simpa using this)
            simp [this]
          simp [hc, hempty]
        · obtain ⟨j, rfl⟩ : ∃ j, k = j + 1 := ⟨k - 1, (Nat.succ_pred_eq_of_pos hkpos).symm⟩
          have hlast : ∃ prev, sk.research_iterations.getLast? = some prev ∧
              prev.timestamp = itime j := by
            have hA := congrArg List.getLast? A
            rw [List.getLast?_map, List.getLast?_map, List.range_succ,
              List.getLast?_concat] at hA
            obtain ⟨prev, hp1, hp2⟩ := Option.map_eq_some'.mp hA
            exact ⟨prev, hp1, hp2⟩
          obtain ⟨prev, hp1, hp2⟩ := hlast
          have hne : ¬ (j + 1 = 0) := by omega
          rw [if_neg hne]
          simp only [hp1]
          rw [hc, List.filter_append]
          have hold : sk.content_retrieval_history.filter
              (fun c => prev.timestamp < c.timestamp) = [] := by
            rw [List.filter_eq_nil_iff]
            intro c hcmem
            have := E c hcmem j (by omega)
            simp only [decide_eq_true_eq]
            omega
          have hnew : nc.filter (fun c => prev.timestamp < c.timestamp) = nc := by
            rw [List.filter_eq_self]
            intro c hcmem
            have h' := htc c hcmem
            have h'' := H2 j
            simp only [decide_eq_true_eq]
            omega
          rw [hold, hnew, List.nil_append]
      refine ⟨?_, ?_, ?_, ?_, ?_⟩
      · rw [L3, List.map_append, A, List.map_append]
        rfl
      · rw [hs] at hsliceS
        rw [L1, L3, List.map_append, List.flatten_append, ← B, hs]
        simp only [List.map_cons, List.map_nil, List.flatten_cons, List.flatten_nil,
          List.append_nil]
        rw [hsliceS]
      · rw [hc] at hsliceC
        rw [L2, L3, List.map_append, List.flatten_append, ← C, hc]
        simp only [List.map_cons, List.map_nil, List.flatten_cons, List.flatten_nil,
          List.append_nil]
        rw [hsliceC]
      · intro r hr j hj
        rw [L1, hs] at hr
        rcases List.mem_append.mp hr with hr | hr
        · exact D r hr j (by omega)
        · have h' := hts r hr
          have h'' := H1 k
          have h''' := hmono (show k ≤ j by omega)
          omega
      · intro c hcmem j hj
        rw [L2, hc] at hcmem
        rcases List.mem_append.mp hcmem with hcmem | hcmem
        · exact E c hcmem j (by omega)
        · have h' := htc c hcmem
          have h'' := H1 k
          have h''' := hmono (show k ≤ j by omega)
          omega

/-- C4: starting from a fresh session, under the precondition that record
timestamps are strictly increasing across iterations (each pass's tool-call
time is at most that pass's completion time, and each completion time is
strictly before the next pass's tool-call time), the timestamp-based
attribution rule partitions both full histories exactly across the
`IterationRecord`s: the search history equals the concatenation of the
per-iteration search slices and the content-retrieval history equals the
concatenation of the per-iteration retrieval slices, so every record is
attributed to exactly one iteration — none double-counted, none dropped. -/
theorem claim_C4_attribution_partitions (q mdl : String) (rps N : Nat)
    (ie : Nat → IterationEnv) (itime : Nat → Nat)
    (H1 : ∀ i, (ie i).toolTime ≤ itime i)
    (H2 : ∀ i, itime i < (ie (i + 1)).toolTime) :
    (loopPhase q N ie itime (initialize_conversation (initial_state mdl rps) q)
      ).search_history
      = ((loopPhase q N ie itime (initialize_conversation (initial_state mdl rps) q)
          ).research_iterations.map IterationRecord.search_queries).flatten ∧
    (loopPhase q N ie itime (initialize_conversation (initial_state mdl rps) q)
      ).content_retrieval_history
      = ((loopPhase q N ie itime (initialize_conversation (initial_state mdl rps) q)
          ).research_iterations.map IterationRecord.content_retrievals).flatten := by
  obtain ⟨A, B, C, D, E⟩ := loopSteps_partition q N ie itime H1 H2 N
    (initialize_conversation (initial_state mdl rps) q) rfl rfl rfl
  exact ⟨B, C⟩

/-- A concrete per-pass environment for exercising the attribution rule:
pass `i` performs one search stamped at time `2i+1`. -/
def c4iterEnv : Nat → IterationEnv := fun i =>
  { firstCall := .ok [ContentBlock.toolUse "web_search" { query := some "q" } "id1"]
    toolTime := 2 * i + 1
    exaOutcome := .ok (.attrStyle [.bad])
    scrapeOutcome := .raise "x"
    analysisCall := .ok [ContentBlock.text "fine"] }

/-- The completion time of pass `i` in the concrete environment: `2i+2`. -/
def c4iterTime : Nat → Nat := fun i => 2 * i + 2

/-- Witness for C4: on the concrete strictly-increasing clock the partition
holds for a two-iteration run. -/
theorem claim_C4_witness :
    (∀ i, (c4iterEnv i).toolTime ≤ c4iterTime i) ∧
    (∀ i, c4iterTime i < (c4iterEnv (i + 1)).toolTime) ∧
    ((loopPhase "Q" 2 c4iterEnv c4iterTime
        (initialize_conversation (initial_state "m" 5) "Q")).search_history
      = ((loopPhase "Q" 2 c4iterEnv c4iterTime
          (initialize_conversation (initial_state "m" 5) "Q")).research_iterations.map
            IterationRecord.search_queries).flatten ∧
     (loopPhase "Q" 2 c4iterEnv c4iterTime
        (initialize_conversation (initial_state "m" 5) "Q")).content_retrieval_history
      = ((loopPhase "Q" 2 c4iterEnv c4iterTime
          (initialize_conversation (initial_state "m" 5) "Q")).research_iterations.map
            IterationRecord.content_retrievals).flatten) := by
  have h1 : ∀ i, (c4iterEnv i).toolTime ≤ c4iterTime i := fun i => by
    show 2 * i + 1 ≤ 2 * i + 2
    omega
  have h2 : ∀ i, c4iterTime i < (c4iterEnv (i + 1)).toolTime := fun i => by
    show 2 * i + 2 < 2 * (i + 1) + 1
    omega
  exact ⟨h1, h2, claim_C4_attribution_partitions "Q" "m" 5 2 c4iterEnv c4iterTime h1 h2⟩

end OpenDeepResearcher
